import Mathlib

/-!
Verification development for the music21 test-orchestration engine described in
`documentation/source/developerReference/testing.ipynb` and its specification.

The notebook contains one piece of executable code, `flipStemDirection`, which is
embedded directly.  The orchestration engine itself (`test/multiprocessTest.py`,
`test/singleCoreAll.py`, `music21.mainTest`) is referenced by the documentation but
its code is not part of this tree, so those components are modelled from the
specification's words, as marked in their doc comments.
-/

/-! ## flipStemDirection (embedded from the notebook's doctest example) -/

/-- The exception type raised by music21 code (`exceptions21.Music21Exception`),
carrying its message. -/
structure Music21Exception where
  msg : String
deriving DecidableEq, Repr

/-- An object passed to `flipStemDirection`.  `stemDirection = none` models an object
(such as `note.Rest`) that has no `stemDirection` attribute, so that reading the
attribute raises `AttributeError`; `some sd` models an object whose `stemDirection`
attribute holds the string `sd`. -/
structure NoteObj where
  stemDirection : Option String
deriving DecidableEq, Repr

/-- Embedding of `flipStemDirection(n)` from the notebook.  The Python function
mutates `n` and returns `None`, or raises; here the result is the pair of the raised
exception (if any) and the state of the argument object after the call:

    try:
        sd = n.stemDirection
    except AttributeError:
        raise exceptions21.Music21Exception("flipStemDirection only works on Notes")
    if sd == 'up':
        n.stemDirection = 'down'
    elif sd == 'down':
        n.stemDirection = 'up'
-/
def flipStemDirection (n : NoteObj) : Option Music21Exception × NoteObj :=
  match n.stemDirection with
  | none => (some ⟨"flipStemDirection only works on Notes"⟩, n)
  | some sd =>
    if sd = "up" then (none, { n with stemDirection := some "down" })
    else if sd = "down" then (none, { n with stemDirection := some "up" })
    else (none, n)

/-! ## Test Unit data model (spec section 3) -/

/-- Modelled from the spec: the two kinds of Test Unit (`StateTest`, `ExampleTest`);
the discovery code is not under this tree. -/
inductive UnitKind where
  | stateTest
  | exampleTest
deriving DecidableEq, Repr

/-- Modelled from the spec: the speed classification of a Test Unit (the spec's
`speedClass` field, values `Normal`, `External`, `Slow`); the `Test` /
`TestExternal` / `TestSlow` grouping code is not under this tree. -/
inductive Speed where
  | normal
  | external
  | slow
deriving DecidableEq, Repr

/-- Modelled from the spec: one discoverable Test Unit, with its stable string id,
kind, and speed classification (`speedClass` in the spec). -/
structure TestUnit where
  id : String
  kind : UnitKind
  speed : Speed
deriving DecidableEq, Repr

/-- Modelled from the spec: the status of one Execution Outcome. -/
inductive Status where
  | pass
  | fail
  | error
deriving DecidableEq, Repr

/-- Modelled from the spec: the Execution Outcome of running one Test Unit. -/
structure Outcome where
  unitId : String
  status : Status
  message : String
deriving DecidableEq, Repr

/-! ## Lexicographic order on ids

String comparison, spelled out on the character lists so that it is fully
computable by the kernel. -/

/-- Lexicographic less-or-equal on character lists, comparing code points. -/
def lexLe : List Char → List Char → Bool
  | [], _ => true
  | _ :: _, [] => false
  | a :: as, b :: bs =>
    if a.toNat < b.toNat then true
    else if b.toNat < a.toNat then false
    else lexLe as bs

theorem lexLe_total : ∀ xs ys : List Char, lexLe xs ys = true ∨ lexLe ys xs = true := by
  intro xs
  induction xs with
  | nil => intro ys; left; rfl
  | cons a as ih =>
    intro ys
    cases ys with
    | nil => right; rfl
    | cons b bs =>
      simp only [lexLe]
      rcases Nat.lt_trichotomy a.toNat b.toNat with h | h | h
      · left; simp [h]
      · simp [h, Nat.lt_irrefl]
        exact ih bs
      · right; simp [h, Nat.lt_asymm h]

theorem lexLe_trans : ∀ xs ys zs : List Char,
    lexLe xs ys = true → lexLe ys zs = true → lexLe xs zs = true := by
  intro xs
  induction xs with
  | nil => intro ys zs h1 h2; rfl
  | cons a as ih =>
    intro ys zs h1 h2
    cases ys with
    | nil => simp [lexLe] at h1
    | cons b bs =>
      cases zs with
      | nil => simp [lexLe] at h2
      | cons c cs =>
        simp only [lexLe] at h1 h2 ⊢
        rcases Nat.lt_trichotomy b.toNat c.toNat with hbc | hbc | hbc
        · rcases Nat.lt_trichotomy a.toNat b.toNat with hab | hab | hab
          · simp [Nat.lt_trans hab hbc]
          · simp [hab, hbc]
          · simp [Nat.lt_asymm hab, hab] at h1
        · rcases Nat.lt_trichotomy a.toNat b.toNat with hab | hab | hab
          · simp [← hbc, hab]
          · simp [hab, Nat.lt_irrefl] at h1
            simp [hbc, Nat.lt_irrefl] at h2
            simp [hab, ← hbc, Nat.lt_irrefl]
            exact ih bs cs h1 h2
          · simp [Nat.lt_asymm hab, hab] at h1
        · simp [Nat.lt_asymm hbc, hbc] at h2

/-- Modelled from the spec: the scheduler's ordering relation, "reverse lexicographic
order of id" — `u` may come before `v` when `v.id ≤ u.id`. -/
def revLexLe (u v : TestUnit) : Prop := lexLe v.id.data u.id.data = true

instance : DecidableRel revLexLe :=
  fun u v => inferInstanceAs (Decidable (lexLe v.id.data u.id.data = true))

instance : IsTotal TestUnit revLexLe :=
  ⟨fun u v => lexLe_total v.id.data u.id.data⟩

instance : IsTrans TestUnit revLexLe :=
  ⟨fun _ _ _ h1 h2 => lexLe_trans _ _ _ h2 h1⟩

/-! ## Scheduler/Orderer (spec section 4.3) -/

/-- Modelled from the spec: whether a Test Unit takes part in the automated
ordering.  `External` units are always excluded; `Slow` units only when the run is
configured to include them (`test/multiprocessTest.py` is not under this tree). -/
def included (includeSlow : Bool) (u : TestUnit) : Bool :=
  match u.speed with
  | Speed.external => false
  | Speed.slow => includeSlow
  | Speed.normal => true

/-- Modelled from the spec: the units the scheduler keeps, sorted in reverse
lexicographic order of id. -/
def sortedIncluded (includeSlow : Bool) (units : List TestUnit) : List TestUnit :=
  (units.filter (included includeSlow)).insertionSort revLexLe

/-- Modelled from the spec: the boosted units, moved to the front, keeping their
reverse-lexicographic relative order. -/
def boostedPart (boost : String → Bool) (includeSlow : Bool) (units : List TestUnit) :
    List TestUnit :=
  (sortedIncluded includeSlow units).filter (fun u => boost u.id)

/-- Modelled from the spec: the non-boosted remainder, keeping its
reverse-lexicographic relative order. -/
def restPart (boost : String → Bool) (includeSlow : Bool) (units : List TestUnit) :
    List TestUnit :=
  (sortedIncluded includeSlow units).filter (fun u => !boost u.id)

/-- Modelled from the spec: the Scheduler/Orderer's dispatch order — reverse
lexicographic order of id, with boosted units moved to the front
("The tests run in reverse-alphabetical order (with some slow tests boosted to the
beginning)" in the notebook; the scheduler's code is not under this tree). -/
def schedule (boost : String → Bool) (includeSlow : Bool) (units : List TestUnit) :
    List TestUnit :=
  boostedPart boost includeSlow units ++ restPart boost includeSlow units

/-! ## Worker Pool Dispatcher (spec section 4.4) -/

/-- Modelled from the spec: the outcome the dispatcher records for one dispatched
unit.  `completed` maps a unit id to the status and message its worker reported, or
`none` when the owning worker crashed before completing the unit; the dispatcher
records a worker crash as an `Error` outcome for every unit that worker had not
completed (`test/multiprocessTest.py` is not under this tree). -/
def collectOne (completed : String → Option (Status × String)) (u : TestUnit) : Outcome :=
  match completed u.id with
  | some (st, msg) => { unitId := u.id, status := st, message := msg }
  | none => { unitId := u.id, status := Status.error, message := "worker failure" }

/-- Modelled from the spec: the dispatcher's full outcome list for a completed run —
one outcome per dispatched unit, in unit order. -/
def dispatchCollect (units : List TestUnit) (completed : String → Option (Status × String)) :
    List Outcome :=
  units.map (collectOne completed)

/-- Modelled from the spec: the default worker-pool size on a machine with `n`
available processing units — "number of available processing units minus one,
minimum 1" ("(n - 1) of your n-processor system" in the notebook). -/
def defaultWorkerCount (n : Nat) : Nat :=
  if n - 1 < 1 then 1 else n - 1

/-! ## Result Aggregator & Reporter (spec section 4.5) -/

/-- Modelled from the spec: the Run Report aggregate. -/
structure RunReport where
  total : Nat
  passed : Nat
  failed : Nat
  errored : Nat
  failureDetails : List (String × String)
deriving DecidableEq, Repr

/-- Modelled from the spec: folding all Execution Outcomes into one Run Report, the
failure details kept in arrival order. -/
def aggregate (outs : List Outcome) : RunReport :=
  { total := outs.length
    passed := (outs.filter (fun o => o.status == Status.pass)).length
    failed := (outs.filter (fun o => o.status == Status.fail)).length
    errored := (outs.filter (fun o => o.status == Status.error)).length
    failureDetails :=
      (outs.filter (fun o => !(o.status == Status.pass))).map (fun o => (o.unitId, o.message)) }

/-- Modelled from the spec: the computed exit status — the success sentinel `0` iff
`failed == 0 and errored == 0`, otherwise the failure sentinel `-1` ("it exits with
0 or -1" in the notebook; `test/singleCoreAll.py` is not under this tree). -/
def exitCode (r : RunReport) : Int :=
  if r.failed = 0 ∧ r.errored = 0 then 0 else -1

/-- Modelled from the spec: the status with which the CI entry point `ciMain`
terminates the process — the same logic as `main`, but the computed exit status is
used to terminate the process (`test/singleCoreAll.py` is not under this tree). -/
def ciMain (outs : List Outcome) : Int :=
  exitCode (aggregate outs)

/-- Modelled from the spec: everything the Reporter writes to standard output — one
line per failure detail, nothing else, so that a fully passing run is silent. -/
def reporterOutput (outs : List Outcome) : String :=
  String.join ((aggregate outs).failureDetails.map (fun p => p.1 ++ ": " ++ p.2 ++ "\n"))

/-! ## Isolated Executor for ExampleTests (spec section 4.2)

A small statement language rich enough to observe variable visibility: a statement
either binds a variable to a number or looks a variable up (the looked-up value, or
`none` for an undefined variable, is the statement's observable result). -/

/-- Modelled from the spec: one extracted doctest statement. -/
inductive Stmt where
  | assign (x : String) (v : Nat)
  | lookup (x : String)
deriving DecidableEq, Repr

/-- The variable namespace a doctest runs in: bindings from names to values. -/
def Env : Type := List (String × Nat)

/-- Modelled from the spec: executing one statement in a namespace, returning the
new namespace and the observable result of the statement (`none` for an assignment,
`some r` for a lookup, where `r` is the bound value or `none` if unbound). -/
def execStmt (env : Env) : Stmt → Env × Option (Option Nat)
  | Stmt.assign x v => ((x, v) :: env, none)
  | Stmt.lookup x => (env, some (List.lookup x env))

/-- Modelled from the spec: executing a statement list in order, threading the
namespace, collecting each statement's observable result. -/
def execStmts (env : Env) : List Stmt → Env × List (Option (Option Nat))
  | [] => (env, [])
  | s :: rest =>
    let (env1, r) := execStmt env s
    let (env2, rs) := execStmts env1 rest
    (env2, r :: rs)

/-- Modelled from the spec: the Isolated Executor runs each ExampleTest unit in "one
fresh, isolated variable namespace per unit" — the empty namespace ("All doctests
start with a clean slate of variables" in the notebook). -/
def runExampleUnit (stmts : List Stmt) : List (Option (Option Nat)) :=
  (execStmts [] stmts).2

/-- Modelled from the spec: one worker executing a list of ExampleTest units
sequentially, each through the Isolated Executor. -/
def runWorkerSequential (units : List (List Stmt)) : List (List (Option (Option Nat))) :=
  units.map runExampleUnit

/-! ## ExampleTest expectation checking (spec section 4.2) -/

/-- Modelled from the spec: what actually happened when one doctest statement was
executed — it returned rendered output text, or it raised with an error text. -/
inductive StmtResult where
  | returned (out : String)
  | raised (err : String)
deriving DecidableEq, Repr

/-- Modelled from the spec: the expectation attached to one doctest statement —
expected rendered output text, or a failure-report line with expected error text. -/
inductive Expected where
  | output (s : String)
  | errorReport (s : String)
deriving DecidableEq, Repr

/-- Modelled from the spec: comparing one statement's actual result against its
expectation.  Exact text match is a `Pass`; a text mismatch, a raise where success
was expected, or a normal return where a raise was expected, is a `Fail`. -/
def checkStmt (actual : StmtResult) (expected : Expected) : Status :=
  match actual, expected with
  | StmtResult.returned out, Expected.output s => if out = s then Status.pass else Status.fail
  | StmtResult.raised err, Expected.errorReport s => if err = s then Status.pass else Status.fail
  | StmtResult.raised _, Expected.output _ => Status.fail
  | StmtResult.returned _, Expected.errorReport _ => Status.fail

/-! ## Helper lemmas -/

theorem collectOne_unitId (completed : String → Option (Status × String)) (u : TestUnit) :
    (collectOne completed u).unitId = u.id := by
  unfold collectOne
  rcases completed u.id with _ | ⟨st, msg⟩ <;> rfl

/-- The three demonstration units of the spec's ordering example, ids "b", "a", "c". -/
def demoUnits : List TestUnit :=
  [{ id := "b", kind := UnitKind.stateTest, speed := Speed.normal },
   { id := "a", kind := UnitKind.stateTest, speed := Speed.normal },
   { id := "c", kind := UnitKind.stateTest, speed := Speed.normal }]

/-! ## Claim theorems -/

/-- C9: `flipStemDirection` maps a `stemDirection` of "up" to "down" and "down" to
"up", so applying it twice to a note whose `stemDirection` is "up" or "down"
restores the original note, and a single application leaves a note with any other
`stemDirection` value (such as "unspecified") unchanged. -/
theorem flipStemDirection_involution : ∀ n : NoteObj,
    (n.stemDirection = some "up" → (flipStemDirection n).2.stemDirection = some "down")
    ∧ (n.stemDirection = some "down" → (flipStemDirection n).2.stemDirection = some "up")
    ∧ (n.stemDirection = some "up" ∨ n.stemDirection = some "down" →
        (flipStemDirection (flipStemDirection n).2).2 = n)
    ∧ (∀ sd, n.stemDirection = some sd → sd ≠ "up" → sd ≠ "down" →
        (flipStemDirection n).2 = n) := by
  intro n
  obtain ⟨osd⟩ := n
  refine ⟨?_, ?_, ?_, ?_⟩
  · intro h
    simp only [NoteObj.mk.injEq] at h ⊢
    subst h
    decide
  · intro h
    simp only at h
    subst h
    decide
  · intro h
    simp only at h
    rcases h with h | h <;> (subst h; decide)
  · intro sd h hup hdown
    simp only at h
    subst h
    simp [flipStemDirection, hup, hdown]

/-- Witness for C9 at concrete inputs: a note with `stemDirection` "up" is restored
by a double flip, and a note with `stemDirection` "unspecified" is unchanged by one
flip. -/
theorem flipStemDirection_involution_witness :
    (flipStemDirection (flipStemDirection ⟨some "up"⟩).2).2 = (⟨some "up"⟩ : NoteObj)
    ∧ (flipStemDirection ⟨some "unspecified"⟩).2 = (⟨some "unspecified"⟩ : NoteObj) :=
  ⟨(flipStemDirection_involution ⟨some "up"⟩).2.2.1 (Or.inl rfl),
   (flipStemDirection_involution ⟨some "unspecified"⟩).2.2.2 "unspecified" rfl
     (by decide) (by decide)⟩

/-- C10: `flipStemDirection` raises `Music21Exception` with message
"flipStemDirection only works on Notes" exactly when its argument has no
`stemDirection` attribute (no bare `AttributeError` ever escapes); on that error
path the argument is left unchanged, and every argument that does have a
`stemDirection` attribute returns without raising. -/
theorem flipStemDirection_error_behavior : ∀ n : NoteObj,
    ((flipStemDirection n).1 ≠ none ↔ n.stemDirection = none)
    ∧ ((flipStemDirection n).1 = none ∨
        (flipStemDirection n).1 = some ⟨"flipStemDirection only works on Notes"⟩)
    ∧ (n.stemDirection = none → (flipStemDirection n).2 = n) := by
  intro n
  obtain ⟨osd⟩ := n
  cases osd with
  | none => refine ⟨?_, ?_, ?_⟩ <;> simp [flipStemDirection]
  | some sd =>
    have h1 : (flipStemDirection ⟨some sd⟩).1 = none := by
      simp only [flipStemDirection]
      split
      · rfl
      · split <;> rfl
    refine ⟨?_, Or.inl h1, ?_⟩
    · simp [h1]
    · intro h
      simp at h

/-- Witness for C10 at a concrete input: an object with no `stemDirection`
attribute is left unchanged by the failed call, and an object that has one returns
without raising. -/
theorem flipStemDirection_error_behavior_witness :
    (flipStemDirection ⟨none⟩).2 = (⟨none⟩ : NoteObj)
    ∧ ((flipStemDirection ⟨some "up"⟩).1 = none ∨
        (flipStemDirection ⟨some "up"⟩).1 = some ⟨"flipStemDirection only works on Notes"⟩) :=
  ⟨(flipStemDirection_error_behavior ⟨none⟩).2.2 rfl,
   (flipStemDirection_error_behavior ⟨some "up"⟩).2.1⟩

/-- C8: the default worker-pool size on a machine with `n` available processing
units is `n - 1` but never below 1 — that is, `max (n - 1) 1`, which is 1 when
`n = 1`. -/
theorem defaultWorkerCount_spec : ∀ n : Nat,
    defaultWorkerCount n = max (n - 1) 1
    ∧ 1 ≤ defaultWorkerCount n
    ∧ defaultWorkerCount 1 = 1
    ∧ (2 ≤ n → defaultWorkerCount n = n - 1) := by
  intro n
  refine ⟨?_, ?_, rfl, ?_⟩
  · unfold defaultWorkerCount
    split <;> omega
  · unfold defaultWorkerCount
    split <;> omega
  · intro h
    unfold defaultWorkerCount
    split <;> omega

/-- Witness for C8 at a concrete input: on a 4-processor machine the default pool
size is 3. -/
theorem defaultWorkerCount_spec_witness : defaultWorkerCount 4 = 4 - 1 :=
  (defaultWorkerCount_spec 4).2.2.2 (by decide)

/-- C3: the computed `exitCode` is the success sentinel 0 iff `failed == 0` and
`errored == 0`, otherwise the failure sentinel -1, and the CI entry point
terminates the process with exactly that computed status. -/
theorem exitCode_ciMain_spec : ∀ (r : RunReport) (outs : List Outcome),
    (exitCode r = 0 ↔ r.failed = 0 ∧ r.errored = 0)
    ∧ (exitCode r = 0 ∨ exitCode r = -1)
    ∧ ciMain outs = exitCode (aggregate outs) := by
  intro r outs
  refine ⟨?_, ?_, rfl⟩
  · unfold exitCode
    split <;> simp_all
  · unfold exitCode
    split <;> simp

/-- C4: when every dispatched unit's outcome is `Pass`, the Reporter writes nothing
to standard output. -/
theorem reporter_silent_on_success : ∀ outs : List Outcome,
    (∀ o ∈ outs, o.status = Status.pass) → reporterOutput outs = "" := by
  intro outs h
  have hfilter : outs.filter (fun o => !(o.status == Status.pass)) = [] := by
    rw [List.filter_eq_nil_iff]
    intro o ho
    simp [h o ho]
  have hfd : (aggregate outs).failureDetails
      = (outs.filter (fun o => !(o.status == Status.pass))).map
          (fun o => (o.unitId, o.message)) := rfl
  unfold reporterOutput
  rw [hfd, hfilter]
  rfl

/-- Witness for C4 at a concrete input: a run of one passing unit produces the
empty output. -/
theorem reporter_silent_on_success_witness :
    reporterOutput [{ unitId := "t1", status := Status.pass, message := "" }] = "" :=
  reporter_silent_on_success _ (by decide)

/-- C1: over any completed run, every dispatched unit (with distinct unit ids) has
exactly one Execution Outcome carrying its id — no outcome lost, none duplicated —
and every unit its worker had not completed (a crash) still receives an `Error`
outcome instead of being dropped. -/
theorem dispatch_exactly_one_outcome : ∀ (units : List TestUnit)
    (completed : String → Option (Status × String)) (u : TestUnit),
    (units.map TestUnit.id).Nodup → u ∈ units →
    ((dispatchCollect units completed).countP (fun o => o.unitId == u.id) = 1)
    ∧ (completed u.id = none →
        ({ unitId := u.id, status := Status.error, message := "worker failure" } : Outcome)
          ∈ dispatchCollect units completed) := by
  intro units completed u hnd hmem
  constructor
  · unfold dispatchCollect
    rw [List.countP_map]
    have hcong : units.countP (fun v => (collectOne completed v).unitId == u.id)
        = units.countP (fun v => v.id == u.id) := by
      apply List.countP_congr
      intro v _
      rw [collectOne_unitId]
    have hmap : units.countP (fun v => v.id == u.id)
        = (units.map TestUnit.id).countP (fun s => s == u.id) := by
      rw [List.countP_map]
      rfl
    have hcnt : (units.map TestUnit.id).countP (fun s => s == u.id)
        = (units.map TestUnit.id).count u.id := rfl
    have hone : (units.map TestUnit.id).count u.id = 1 :=
      List.count_eq_one_of_mem hnd (List.mem_map_of_mem TestUnit.id hmem)
    calc units.countP (fun v => (collectOne completed v).unitId == u.id)
        = units.countP (fun v => v.id == u.id) := hcong
      _ = (units.map TestUnit.id).countP (fun s => s == u.id) := hmap
      _ = (units.map TestUnit.id).count u.id := hcnt
      _ = 1 := hone
  · intro hc
    unfold dispatchCollect
    have hval : collectOne completed u
        = { unitId := u.id, status := Status.error, message := "worker failure" } := by
      unfold collectOne
      rw [hc]
    exact hval ▸ List.mem_map_of_mem (collectOne completed) hmem

/-- Witness for C1 at a concrete run: two units, the worker reported "u1" as passed
and crashed before completing "u2"; the crashed unit still has exactly one outcome,
an `Error` one. -/
theorem dispatch_exactly_one_outcome_witness :
    ((dispatchCollect
        [{ id := "u2", kind := UnitKind.stateTest, speed := Speed.normal },
         { id := "u1", kind := UnitKind.stateTest, speed := Speed.normal }]
        (fun s => if s == "u1" then some (Status.pass, "") else none)).countP
        (fun o => o.unitId == "u2") = 1)
    ∧ ({ unitId := "u2", status := Status.error, message := "worker failure" } : Outcome)
        ∈ dispatchCollect
            [{ id := "u2", kind := UnitKind.stateTest, speed := Speed.normal },
             { id := "u1", kind := UnitKind.stateTest, speed := Speed.normal }]
            (fun s => if s == "u1" then some (Status.pass, "") else none) := by
  have h := dispatch_exactly_one_outcome
      [{ id := "u2", kind := UnitKind.stateTest, speed := Speed.normal },
       { id := "u1", kind := UnitKind.stateTest, speed := Speed.normal }]
      (fun s => if s == "u1" then some (Status.pass, "") else none)
      { id := "u2", kind := UnitKind.stateTest, speed := Speed.normal }
      (by decide) (by decide)
  exact ⟨h.1, h.2 (by decide)⟩

/-- C2: for every finite unit list the dispatch order is the boosted units followed
by the rest, each group internally in reverse lexicographic order of id, and the
whole order is a permutation of the included units; in particular for ids
"b", "a", "c" with no boosts the order is ["c", "b", "a"], and with "a" boosted it
is ["a", "c", "b"]. -/
theorem schedule_order_spec :
    (∀ (boost : String → Bool) (includeSlow : Bool) (units : List TestUnit),
        schedule boost includeSlow units
            = boostedPart boost includeSlow units ++ restPart boost includeSlow units
        ∧ List.Sorted revLexLe (boostedPart boost includeSlow units)
        ∧ List.Sorted revLexLe (restPart boost includeSlow units)
        ∧ List.Perm (schedule boost includeSlow units) (units.filter (included includeSlow))
        ∧ (∀ u ∈ boostedPart boost includeSlow units, boost u.id = true)
        ∧ (∀ u ∈ restPart boost includeSlow units, boost u.id = false))
    ∧ (schedule (fun _ => false) true demoUnits).map TestUnit.id = ["c", "b", "a"]
    ∧ (schedule (fun s => s == "a") true demoUnits).map TestUnit.id = ["a", "c", "b"] := by
  refine ⟨?_, by decide, by decide⟩
  intro boost includeSlow units
  refine ⟨rfl, ?_, ?_, ?_, ?_, ?_⟩
  · exact List.Pairwise.filter _ (List.sorted_insertionSort revLexLe _)
  · exact List.Pairwise.filter _ (List.sorted_insertionSort revLexLe _)
  · exact (List.filter_append_perm _ (sortedIncluded includeSlow units)).trans
      (List.perm_insertionSort revLexLe _)
  · intro u hu
    exact (List.mem_filter.1 hu).2
  · intro u hu
    have h := (List.mem_filter.1 hu).2
    simpa using h

/-- Witness for C2 at the spec's concrete example: with "a" boosted the dispatch
order of ids "b", "a", "c" is ["a", "c", "b"]. -/
theorem schedule_order_spec_witness :
    (schedule (fun s => s == "a") true demoUnits).map TestUnit.id = ["a", "c", "b"] :=
  schedule_order_spec.2.2

/-- C7: the automated dispatch order never contains an `External` unit, under any
boost and slow-inclusion configuration, and contains a `Slow` unit only when the
run is configured to include slow units. -/
theorem schedule_excludes_external_slow : ∀ (boost : String → Bool) (includeSlow : Bool)
    (units : List TestUnit) (u : TestUnit), u ∈ schedule boost includeSlow units →
    u.speed ≠ Speed.external ∧ (u.speed = Speed.slow → includeSlow = true) := by
  intro boost includeSlow units u hu
  have hmem : u ∈ units.filter (included includeSlow) := by
    unfold schedule boostedPart restPart sortedIncluded at hu
    rcases List.mem_append.1 hu with h | h
    · exact (List.mem_insertionSort revLexLe).1 (List.mem_filter.1 h).1
    · exact (List.mem_insertionSort revLexLe).1 (List.mem_filter.1 h).1
  have hinc : included includeSlow u = true := (List.mem_filter.1 hmem).2
  unfold included at hinc
  constructor
  · intro he
    rw [he] at hinc
    exact Bool.noConfusion hinc
  · intro hs
    rw [hs] at hinc
    exact hinc

/-- Witness for C7 at a concrete input: a `Slow` unit appearing in a
slow-inclusive schedule is not `External`, and the run is indeed configured to
include slow units. -/
theorem schedule_excludes_external_slow_witness :
    ((⟨"s", UnitKind.stateTest, Speed.slow⟩ : TestUnit).speed ≠ Speed.external)
    ∧ (true = true) := by
  have h := schedule_excludes_external_slow (fun _ => false) true
      [⟨"s", UnitKind.stateTest, Speed.slow⟩] ⟨"s", UnitKind.stateTest, Speed.slow⟩
      (by decide)
  exact ⟨h.1, h.2 rfl⟩

/-- C5: two ExampleTest units dispatched sequentially to the same worker are
isolated — each runs through the Isolated Executor in a fresh, empty namespace, so
the second unit's observations never depend on the first, and any variable looked
up at the start of the second unit is unbound no matter what the first unit
assigned. -/
theorem exampleTest_isolation : ∀ (A B : List Stmt) (x : String),
    runWorkerSequential [A, B] = [runExampleUnit A, runExampleUnit B]
    ∧ (runExampleUnit (Stmt.lookup x :: B)).head? = some (some none) := by
  intro A B x
  refine ⟨rfl, ?_⟩
  unfold runExampleUnit execStmts execStmt
  simp [List.lookup]

/-- C6: on a statement whose expectation is a failure-report line, the executor
records `Pass` exactly when the statement raised with the expected error text; a
raised-text mismatch or a normal return where a raise was expected is a `Fail`, a
raise where success was expected is a `Fail`, and none of these is ever an
`Error`. -/
theorem exampleTest_expected_failure : ∀ (a : StmtResult) (s : String),
    (checkStmt a (Expected.errorReport s) = Status.pass ↔ a = StmtResult.raised s)
    ∧ (checkStmt a (Expected.errorReport s) ≠ Status.pass →
        checkStmt a (Expected.errorReport s) = Status.fail)
    ∧ (∀ e out, checkStmt (StmtResult.raised e) (Expected.output out) = Status.fail)
    ∧ (checkStmt a (Expected.errorReport s) ≠ Status.error) := by
  intro a s
  cases a with
  | returned out =>
    refine ⟨?_, ?_, ?_, ?_⟩
    · simp [checkStmt]
    · intro _
      rfl
    · intro e o
      rfl
    · simp [checkStmt]
  | raised err =>
    by_cases h : err = s
    · subst h
      refine ⟨?_, ?_, ?_, ?_⟩
      · simp [checkStmt]
      · intro hne
        exact absurd (by simp [checkStmt]) hne
      · intro e o
        rfl
      · simp [checkStmt]
    · refine ⟨?_, ?_, ?_, ?_⟩
      · simp [checkStmt, h]
      · intro _
        simp [checkStmt, h]
      · intro e o
        rfl
      · simp [checkStmt, h]

/-- Witness for C6 at a concrete input: a statement that returned "3" where the
error text "boom" was expected is recorded as `Fail`. -/
theorem exampleTest_expected_failure_witness :
    checkStmt (StmtResult.returned "3") (Expected.errorReport "boom") = Status.fail :=
  (exampleTest_expected_failure (StmtResult.returned "3") "boom").2.1 (by decide)
